import Mathlib

/-!
Shallow embedding of the KPI/ROI domain logic of the two dashboard variants
(src/app2.py and src/app3.py).  Numeric values entered in the UI are Python
floats; they are modelled as rationals (ℚ).  Python float division raises
ZeroDivisionError when the divisor is zero, so divisions that the source code
performs without a zero guard are modelled through `pydiv`, returning `none`
exactly when Python would raise.  Names and units are strings; Python string
truthiness (`if tool_name`) is non-emptiness.  Displayed f-string messages
are modelled structurally: the numeric payload interpolated into a message is
kept as the exact rational the code computes (formatting is presentation).
-/

/-- A KPI record as stored in both variants: name, current value, target
value and display unit (app3.py lines 48-56, app2.py `kpis` dicts). -/
structure KPI where
  name : String
  current : ℚ
  target : ℚ
  unit : String
deriving DecidableEq, Repr

/-- A tool record of the app3 variant (app3.py lines 25-43 and 335-343):
identifier, name, category, total investment, implementation date (kept as
the raw string), team size and description. -/
structure Tool where
  id : Nat
  name : String
  category : String
  total_investment : ℚ
  implementation_date : String
  team_size : Nat
  description : String
deriving DecidableEq, Repr

/-- A tool record of the app2 variant (app2.py lines 86-111 and 220-228):
no identifier; the KPI records live directly on the tool (the `kpis` dict,
modelled as a list in insertion order). -/
structure Tool2 where
  name : String
  category : String
  investment : ℚ
  date_implemented : String
  team_size : Nat
  description : String
  kpis : List KPI
deriving DecidableEq, Repr

/-- Python float division: `a / b` raises ZeroDivisionError when `b = 0`,
modelled as `none`; otherwise it returns the exact quotient. -/
def pydiv (a b : ℚ) : Option ℚ :=
  if b = 0 then none else some (a / b)

/-- app3.py lines 271-272 (View Current KPIs, Progress metric) and lines
459-460 (Set Targets, Performance metric): the clamped per-KPI performance
percentage `min(100, current/target*100 if target > 0 else 0)`. -/
def kpi_performance (kpi : KPI) : ℚ :=
  let percentage := if kpi.target > 0 then kpi.current / kpi.target * 100 else 0
  min 100 percentage

/-- One iteration of the accumulation loop of `get_performance_percentage`
(app3.py lines 131-134): add the clamped performance when `target > 0`,
otherwise leave the accumulator unchanged. -/
def perfFoldStep (acc : ℚ) (kpi : KPI) : ℚ :=
  if kpi.target > 0 then acc + min 100 (kpi.current / kpi.target * 100) else acc

/-- app3.py lines 126-135, `get_performance_percentage(kpis)`: returns 0 for
an empty list, otherwise the accumulated clamped performances divided by the
number of KPIs (zero-target KPIs contribute nothing to the sum but are
counted in the denominator). -/
def get_performance_percentage (kpis : List KPI) : ℚ :=
  if kpis.isEmpty then 0
  else (kpis.foldl perfFoldStep 0) / (kpis.length : ℚ)

/-- app2.py lines 248-253 (Simple ROI Calculator): total benefits are the
monthly savings times the months in use, and the division by the investment
is guarded, returning 0 whenever the investment is not positive. -/
def app2_simple_roi (investment monthly_savings months_used : ℚ) : ℚ :=
  let total_benefits := monthly_savings * months_used
  if investment > 0 then (total_benefits - investment) / investment * 100 else 0

/-- app3.py lines 379-387 (Simple ROI Calculator): the division by
`total_cost` carries no zero guard, so the computation fails (Python
ZeroDivisionError, modelled as `none`) when `total_cost = 0`. -/
def app3_simple_roi (total_cost monthly_savings months_in_use : ℚ) : Option ℚ :=
  let total_savings := monthly_savings * months_in_use
  (pydiv (total_savings - total_cost) total_cost).map (fun r => r * 100)

/-- Boolean test that the character list `pat` is an initial segment of the
second list. -/
def charStartsWith : List Char → List Char → Bool
  | [], _ => true
  | _ :: _, [] => false
  | p :: ps, c :: cs => p == c && charStartsWith ps cs

/-- Boolean substring test on character lists, modelling the Python
`pat in s` operator. -/
def charHasSub (pat : List Char) : List Char → Bool
  | [] => charStartsWith pat []
  | c :: cs => charStartsWith pat (c :: cs) || charHasSub pat cs

/-- The predicate `'cost' in kpi['name'].lower()` of app3.py line 117. -/
def hasCostName (name : String) : Bool :=
  charHasSub "cost".toList (name.toList.map Char.toLower)

/-- First-match lookup in the `st.session_state.kpi_data` dictionary, whose
keys (tool identifiers) are unique. -/
def lookupKpis : List (Nat × List KPI) → Nat → Option (List KPI)
  | [], _ => none
  | (k, v) :: rest, i => if k = i then some v else lookupKpis rest i

/-- The KPI records of a tool: the dictionary entry when present, otherwise
the empty list (a tool absent from `kpi_data` has no KPI records). -/
def toolKpis (kd : List (Nat × List KPI)) (i : Nat) : List KPI :=
  (lookupKpis kd i).getD []

/-- app3.py lines 113-124, `calculate_roi(tool)`: when the tool has a KPI
dictionary entry, scan it for the first KPI whose lowercased name contains
"cost"; on a match, take its current value as monthly savings, compute
`months_in_use = max(1, days/30)` from the days elapsed since the
implementation date (the elapsed days are passed explicitly, the clock being
an injectable collaborator), and divide by `total_investment` without a zero
guard (`pydiv`); with no matching KPI, or no dictionary entry, return 0. -/
def calculate_roi (kd : List (Nat × List KPI)) (tool : Tool) (days_in_use : ℚ) : Option ℚ :=
  match lookupKpis kd tool.id with
  | some kpis =>
    match kpis.find? (fun kpi => hasCostName kpi.name) with
    | some cost_savings_kpi =>
      let monthly_savings := cost_savings_kpi.current
      let months_in_use := max 1 (days_in_use / 30)
      let total_savings := monthly_savings * months_in_use
      (pydiv (total_savings - tool.total_investment) tool.total_investment).map (fun r => r * 100)
    | none => some 0
  | none => some 0

/-- The specification's `simple_roi`: guarded, returning 0 when the total
cost is 0 and the ROI formula otherwise. -/
def simple_roi_spec (total_cost monthly_savings months_in_use : ℚ) : ℚ :=
  if total_cost = 0 then 0
  else (monthly_savings * months_in_use - total_cost) / total_cost * 100

/-- The specification's `months_in_use`: `max(1, days/30)`. -/
def months_in_use_spec (days : ℚ) : ℚ := max 1 (days / 30)

/-- The specification's `estimated_roi`, phrased over a tool's KPI list: the
first append-order KPI whose name contains "cost" case-insensitively feeds
`simple_roi`; otherwise the result is 0. -/
def estimated_roi_spec (kpis : List KPI) (total_investment days : ℚ) : ℚ :=
  match kpis.find? (fun kpi => hasCostName kpi.name) with
  | some k => simple_roi_spec total_investment k.current (months_in_use_spec days)
  | none => 0

/-- The issue text of an app2 recommendation (app2.py lines 355 and 362),
modelled structurally: the constructor records which f-string was used and
the rational interpolated into it (`100-performance` or `performance-100`). -/
inductive Issue2 where
  | underperforming (shortfall : ℚ)
  | exceeding (excess : ℚ)
deriving DecidableEq, Repr

/-- One recommendation entry of app2.py lines 352-364: tool name, KPI name,
issue message and suggestion text. -/
structure Rec2 where
  tool : String
  kpi : String
  issue : Issue2
  suggestion : String
deriving DecidableEq, Repr

/-- app2.py line 349: the unclamped recommendation ratio, 0 when the target
is exactly 0. -/
def app2_ratio (k : KPI) : ℚ :=
  if k.target ≠ 0 then k.current / k.target * 100 else 0

/-- app2.py lines 349-364, the per-KPI body of the recommendations loop:
a ratio below 80 yields an underperforming entry with the fixed suggestion
text, a ratio above 120 yields an exceeding entry, anything else yields
nothing. -/
def app2_rec_for (toolName : String) (k : KPI) : List Rec2 :=
  let performance := app2_ratio k
  if performance < 80 then
    [⟨toolName, k.name, Issue2.underperforming (100 - performance),
      "Consider additional training or tool optimization"⟩]
  else if performance > 120 then
    [⟨toolName, k.name, Issue2.exceeding (performance - 100),
      "Could expand usage to other teams/projects"⟩]
  else []

/-- app2.py lines 345-364: the full recommendation list, tools in insertion
order, KPIs in append order (display truncates to the first 3; the list
itself is built in full). -/
def app2_recommendations (tools : List Tool2) : List Rec2 :=
  tools.flatMap (fun t => t.kpis.flatMap (app2_rec_for t.name))

/-- One entry of app3's `underperforming_tools` list (app3.py lines
514-520): tool name, KPI name, unclamped performance ratio, current and
target values. -/
structure Under3 where
  tool : String
  kpi : String
  performance : ℚ
  current : ℚ
  target : ℚ
deriving DecidableEq, Repr

/-- app3.py lines 510-520, the per-KPI body of the recommendations loop:
only KPIs with a strictly positive target are examined; the unclamped ratio
below 80 yields an entry, and zero-target KPIs are skipped outright. -/
def app3_kpi_rec (toolName : String) (k : KPI) : List Under3 :=
  if k.target > 0 then
    let performance := k.current / k.target * 100
    if performance < 80 then [⟨toolName, k.name, performance, k.current, k.target⟩]
    else []
  else []

/-- app3.py lines 506-520: the full `underperforming_tools` list, tools in
insertion order, KPIs in append order; tools without a `kpi_data` entry are
skipped (their KPI list is empty). -/
def app3_underperforming (tools : List Tool) (kd : List (Nat × List KPI)) : List Under3 :=
  tools.flatMap (fun t => (toolKpis kd t.id).flatMap (app3_kpi_rec t.name))

/-- The suggestion tier displayed for an app3 underperforming entry
(app3.py lines 527-534): below 50 the onboarding/configuration-review lines,
from 50 up to (but excluding) 80 the usage-optimization/feedback lines. -/
inductive Tier3 where
  | onboarding
  | optimize
deriving DecidableEq, Repr

/-- The tier selection of app3.py lines 527-534 as a function of the stored
performance ratio. -/
def app3_suggestion_tier (performance : ℚ) : Option Tier3 :=
  if performance < 50 then some Tier3.onboarding
  else if performance < 80 then some Tier3.optimize
  else none

/-- The app3 session store: the tool list and the KPI dictionary keyed by
tool identifier (app3.py lines 17-20). -/
structure DashStore where
  ai_tools : List Tool
  kpi_data : List (Nat × List KPI)
deriving DecidableEq, Repr

/-- The empty session store. -/
def emptyStore : DashStore := ⟨[], []⟩

/-- The values read from the Add-New-AI-Tool form of app3.py lines 291-299. -/
structure FormInput where
  tool_name : String
  category : String
  total_investment : ℚ
  implementation_date : String
  team_size : Nat
  description : String
deriving DecidableEq, Repr

/-- app3.py lines 332-333: `new_id = max([tool['id'] for tool in tools],
default=0) + 1`. -/
def new_tool_id (tools : List Tool) : Nat :=
  (tools.foldl (fun m t => max m t.id) 0) + 1

/-- Python dictionary assignment `kd[key] = v`: replace the value of the
matching key in place (position preserved, keys are unique), otherwise
append the new entry at the end. -/
def dictInsert : List (Nat × List KPI) → Nat → List KPI → List (Nat × List KPI)
  | [], key, v => [(key, v)]
  | (k, w) :: rest, key, v =>
    if k = key then (key, v) :: rest else (k, w) :: dictInsert rest key v

/-- app3.py lines 330-358, the submit handler of the Add-New-AI-Tool form:
the guard `if tool_name and category and total_investment > 0` (string
truthiness = non-emptiness, investment strictly positive) decides success;
on success the tool is appended with the freshly allocated identifier and
`kpi_data[new_id]` is set to the singleton list holding KPI 1; on failure
(else branch, line 360) only an error message is shown and the store is
untouched.  The returned option is the allocated identifier. -/
def add_tool_submit (store : DashStore) (inp : FormInput) (kpi1 : KPI) : DashStore × Option Nat :=
  if inp.tool_name ≠ "" ∧ inp.category ≠ "" ∧ 0 < inp.total_investment then
    let new_id := new_tool_id store.ai_tools
    ({ ai_tools := store.ai_tools ++
        [⟨new_id, inp.tool_name, inp.category, inp.total_investment,
          inp.implementation_date, inp.team_size, inp.description⟩],
       kpi_data := dictInsert store.kpi_data new_id [kpi1] },
     some new_id)
  else (store, none)


/-- app3.py lines 301-358, the whole Add-New-AI-Tool form: besides KPI 1 the
form renders an Additional-KPIs section (lines 311-326) whose values are
read into loop-local variables that the submit handler never references, so
the handler's result depends only on the main fields and KPI 1. -/
def add_tool_form (store : DashStore) (inp : FormInput) (kpi1 : KPI)
    (_add_more_kpis : Bool) (_additional_kpis : List KPI) : DashStore × Option Nat :=
  add_tool_submit store inp kpi1

/-- app2.py lines 217-231, the submit handler of app2's Add-New-AI-Tool
form: the only check is `if submitted and tool_name` (name non-emptiness);
the investment is not examined by the handler (the widget alone restricts it
to be non-negative); on success the tool is appended, on failure the store
is untouched.  The boolean reports success. -/
def app2_add_tool (tools : List Tool2) (inp : FormInput) (kpis_to_add : List KPI) :
    List Tool2 × Bool :=
  if inp.tool_name ≠ "" then
    (tools ++ [⟨inp.tool_name, inp.category, inp.total_investment,
      inp.implementation_date, inp.team_size, inp.description, kpis_to_add⟩], true)
  else (tools, false)

/-- Concrete tool for the C2 scenario: investment 20000. -/
def c2Tool : Tool := ⟨1, "AI Task Assistant", "Productivity", 20000, "2024-01-15", 10, ""⟩

/-- Concrete KPI dictionary for the C2 scenario: one KPI named
"Cost Savings" with current value 10000. -/
def c2KD : List (Nat × List KPI) := [(1, [⟨"Cost Savings", 10000, 12000, "$/month"⟩])]

/-- Concrete tool for the C3 counterexample. -/
def c3Tool : Tool := ⟨1, "Risk Predictor", "Risk Management", 25000, "2024-02-01", 22, ""⟩

/-- Concrete form input for the C8 witness. -/
def c8Inp : FormInput := ⟨"Risk Predictor", "Risk Management", 25000, "2024-02-01", 22, ""⟩

/-- Concrete KPI 1 for the C8 witness. -/
def c8Kpi : KPI := ⟨"Time Saved", 0, 100, "hours/month"⟩

/-- Concrete form inputs for the C9 witness. -/
def c9Inp1 : FormInput := ⟨"Tool A", "Productivity", 1000, "2024-01-01", 5, ""⟩

/-- Second concrete form input for the C9 witness. -/
def c9Inp2 : FormInput := ⟨"Tool B", "Analytics", 2000, "2024-02-01", 7, ""⟩

/-- Third concrete form input for the C9 witness. -/
def c9Inp3 : FormInput := ⟨"Tool C", "Automation", 3000, "2024-03-01", 9, ""⟩

/-- Concrete KPI for the C9 witness. -/
def c9Kpi : KPI := ⟨"Time Saved", 0, 100, "hours/month"⟩

/-- Concrete form input for the C10 witness. -/
def c10Inp : FormInput := ⟨"AI Reporting Assistant", "Reporting", 12000, "2024-04-01", 8, ""⟩

/-- Concrete KPI 1 for the C10 witness. -/
def c10Kpi : KPI := ⟨"Reports Automated", 20, 50, "reports/month"⟩

/-- First additional KPI entered (and discarded) in the C10 witness. -/
def c10Extra1 : KPI := ⟨"Cost Reduction", 4000, 5000, "$/month"⟩

/-- Second additional KPI entered (and discarded) in the C10 witness. -/
def c10Extra2 : KPI := ⟨"Accuracy", 90, 95, "%"⟩

lemma perfFoldStep_eq (a : ℚ) (k : KPI) : perfFoldStep a k = a + kpi_performance k := by
  unfold perfFoldStep kpi_performance
  by_cases h : k.target > 0 <;> simp [h]

lemma foldl_perf_eq (kpis : List KPI) (a : ℚ) :
    kpis.foldl perfFoldStep a = a + (kpis.map kpi_performance).sum := by
  induction kpis generalizing a with
  | nil => simp
  | cons k rest ih =>
    simp only [List.foldl_cons, List.map_cons, List.sum_cons, perfFoldStep_eq, ih]
    ring

/-- C6: for every KPI record, `kpi_performance` equals
`min(100, current/target*100)` when `target > 0` and `0` otherwise, and is
therefore always at most 100. -/
theorem c6_kpi_performance_clamped (k : KPI) :
    kpi_performance k = (if 0 < k.target then min 100 (k.current / k.target * 100) else 0) ∧
    kpi_performance k ≤ 100 := by
  constructor
  · unfold kpi_performance
    by_cases h : 0 < k.target <;> simp [h]
  · exact min_le_left _ _

/-- C7: `get_performance_percentage` is exactly the arithmetic mean of
`kpi_performance` over the tool's KPI records (zero-target KPIs contribute 0
to the sum while still counted in the denominator), and 0 for a tool with no
KPI records. -/
theorem c7_average_performance (kpis : List KPI) :
    get_performance_percentage kpis =
      (if kpis = [] then 0 else (kpis.map kpi_performance).sum / (kpis.length : ℚ)) := by
  unfold get_performance_percentage
  rcases kpis with _ | ⟨k, rest⟩
  · simp
  · simp only [List.isEmpty_cons, if_false, foldl_perf_eq, zero_add]
    simp

/-- C1 counterexample: app3's Simple ROI Calculator at `total_cost = 0`,
`monthly_savings = 5000`, `months_in_use = 3` does not return 0 — it
performs an unguarded division by zero and fails (Python raises
ZeroDivisionError), refuting the claim that the guarded behavior holds in
both variants. -/
theorem c1_counterexample : app3_simple_roi 0 5000 3 = none := by
  decide

/-- C1 amended: app2's Simple ROI Calculator is guarded — it returns 0 at
`investment = 0` and the ROI formula for positive investment — while app3's
Simple ROI Calculator returns the formula only for nonzero `total_cost` and
fails (raises) at `total_cost = 0`. -/
theorem c1_simple_roi_amended (c m u : ℚ) :
    app2_simple_roi 0 m u = 0 ∧
    (0 < c → app2_simple_roi c m u = (m * u - c) / c * 100) ∧
    (c ≠ 0 → app3_simple_roi c m u = some ((m * u - c) / c * 100)) ∧
    app3_simple_roi 0 m u = none := by
  refine ⟨?_, ?_, ?_, ?_⟩
  · simp [app2_simple_roi]
  · intro h
    simp [app2_simple_roi, h]
  · intro h
    simp [app3_simple_roi, pydiv, h]
  · simp [app3_simple_roi, pydiv]

/-- C1 witness: both calculators at investment 50000, monthly savings
10000, 6 months in use give 20 percent. -/
theorem c1_witness :
    (0 : ℚ) < 50000 ∧ app2_simple_roi 50000 10000 6 = 20 ∧
    app3_simple_roi 50000 10000 6 = some 20 := by
  have h := c1_simple_roi_amended 50000 10000 6
  refine ⟨by norm_num, ?_, ?_⟩
  · rw [h.2.1 (by norm_num)]
    norm_num
  · rw [h.2.2.1 (by norm_num)]
    norm_num

/-- C2: for every tool with positive investment (the only tools app3 can
hold: the sample data and the add-tool guard both enforce it),
`calculate_roi` returns exactly the specification's `estimated_roi`: the
first append-order KPI whose name contains the case-insensitive substring
"cost" feeds `simple_roi(total_investment, current, max(1, days/30))`, and
the result is 0 when no such KPI exists. -/
theorem c2_estimated_roi (kd : List (Nat × List KPI)) (tool : Tool) (days : ℚ)
    (hinv : 0 < tool.total_investment) :
    calculate_roi kd tool days =
      some (estimated_roi_spec (toolKpis kd tool.id) tool.total_investment days) := by
  have hne : tool.total_investment ≠ 0 := ne_of_gt hinv
  unfold calculate_roi toolKpis estimated_roi_spec
  cases h : lookupKpis kd tool.id with
  | none => simp [List.find?]
  | some kpis =>
    cases hf : kpis.find? (fun kpi => hasCostName kpi.name) with
    | none => simp [hf]
    | some k =>
      simp only [Option.getD_some, hf, pydiv, hne, if_false, Option.map_some']
      rw [simple_roi_spec, if_neg hne, months_in_use_spec]

/-- C2 witness: the scenario of the claim — investment 20000, one KPI named
"Cost Savings" with current value 10000, implementation exactly 60 days
before the reference date — gives months in use 2 and an estimated ROI of
exactly 0 percent. -/
theorem c2_witness :
    (0 : ℚ) < 20000 ∧ months_in_use_spec 60 = 2 ∧ calculate_roi c2KD c2Tool 60 = some 0 := by
  refine ⟨by norm_num, by norm_num [months_in_use_spec], ?_⟩
  have h := c2_estimated_roi c2KD c2Tool 60 (by norm_num [c2Tool])
  have hc : hasCostName "Cost Savings" = true := by decide
  rw [h]
  simp only [c2KD, c2Tool, toolKpis, lookupKpis, estimated_roi_spec, List.find?, hc]
  norm_num [simple_roi_spec, months_in_use_spec]

lemma app3_kpi_rec_performance_lt (tname : String) (k : KPI) (item : Under3)
    (h : item ∈ app3_kpi_rec tname k) : item.performance < 80 := by
  unfold app3_kpi_rec at h
  by_cases h1 : k.target > 0
  · by_cases h2 : k.current / k.target * 100 < 80
    · simp only [h1, if_true, h2, List.mem_singleton] at h
      subst h
      simpa using h2
    · simp [h1, h2] at h
  · simp [h1] at h

/-- C3 counterexample: in app3, a tool whose only KPI has current 130 and
target 100 (unclamped ratio 130, above 120) produces an empty
recommendation list — app3's View Recommendations page builds only
underperforming entries and never emits an exceeding recommendation. -/
theorem c3_counterexample :
    app3_underperforming [c3Tool] [(1, [⟨"Risk Detection Accuracy", 130, 100, "%"⟩])] = [] := by
  norm_num [app3_underperforming, c3Tool, toolKpis, lookupKpis, app3_kpi_rec]

/-- C3 amended: in app2's recommendations page every (tool, KPI) pair with
unclamped ratio above 120 yields an exceeding entry whose message carries
`ratio - 100`; app3's recommendations page, in contrast, only ever emits
underperforming entries (every item of its list has ratio below 80), so no
exceeding recommendation exists there. -/
theorem c3_exceeding_amended (tname : String) (k : KPI) (tools : List Tool)
    (kd : List (Nat × List KPI)) (hratio : app2_ratio k > 120) :
    app2_rec_for tname k =
      [⟨tname, k.name, Issue2.exceeding (app2_ratio k - 100),
        "Could expand usage to other teams/projects"⟩] ∧
    ∀ item ∈ app3_underperforming tools kd, item.performance < 80 := by
  constructor
  · have h1 : ¬ app2_ratio k < 80 := by linarith
    unfold app2_rec_for
    simp [h1, hratio]
  · intro item hmem
    unfold app3_underperforming at hmem
    rw [List.mem_flatMap] at hmem
    obtain ⟨t, _, hk⟩ := hmem
    rw [List.mem_flatMap] at hk
    obtain ⟨kpi, _, hitem⟩ := hk
    exact app3_kpi_rec_performance_lt t.name kpi item hitem

/-- C3 witness: the claim's own scenario, KPI current 130 against target
100, fires in app2 as exceeding-by-30. -/
theorem c3_witness :
    app2_ratio ⟨"Risk Detection Accuracy", 130, 100, "%"⟩ > 120 ∧
    app2_rec_for "Risk Predictor" ⟨"Risk Detection Accuracy", 130, 100, "%"⟩ =
      [⟨"Risk Predictor", "Risk Detection Accuracy", Issue2.exceeding 30,
        "Could expand usage to other teams/projects"⟩] := by
  have hgt : app2_ratio ⟨"Risk Detection Accuracy", 130, 100, "%"⟩ > 120 := by
    norm_num [app2_ratio]
  refine ⟨hgt, ?_⟩
  have h := (c3_exceeding_amended "Risk Predictor" ⟨"Risk Detection Accuracy", 130, 100, "%"⟩
    [] [] hgt).1
  rw [h]
  norm_num [app2_ratio]

/-- C4 counterexample: app2's recommendations page attaches the identical
fixed suggestion text to a KPI at ratio 40 (below 50) and to a KPI at ratio
60 (between 50 and 80) — it has no severity-tiered suggestion, refuting the
claim that the tiering holds in both variants' pages. -/
theorem c4_counterexample :
    (app2_rec_for "AI Task Assistant" ⟨"User Adoption", 40, 100, "%"⟩).map Rec2.suggestion =
      ["Consider additional training or tool optimization"] ∧
    (app2_rec_for "AI Task Assistant" ⟨"Accuracy", 60, 100, "%"⟩).map Rec2.suggestion =
      ["Consider additional training or tool optimization"] := by
  constructor <;> norm_num [app2_rec_for, app2_ratio]

/-- C4 amended: for a (tool, KPI) pair with positive target and unclamped
ratio below 80, app2's page emits an underperforming entry whose message
carries the shortfall `100 - ratio` together with one fixed suggestion (no
severity tiers), while app3's page emits an entry carrying the ratio itself
and displays severity-tiered suggestions (ratio below 50: onboarding and
configuration review; 50 up to 80: usage optimization and feedback).  For a
zero-target KPI (ratio 0), app2 emits underperforming-by-100 while app3
emits nothing. -/
theorem c4_underperforming_amended (tname : String) (k : KPI) (k0 : KPI)
    (ht : 0 < k.target) (hr : k.current / k.target * 100 < 80) (h0 : k0.target = 0) :
    app2_rec_for tname k =
      [⟨tname, k.name, Issue2.underperforming (100 - k.current / k.target * 100),
        "Consider additional training or tool optimization"⟩] ∧
    app3_kpi_rec tname k = [⟨tname, k.name, k.current / k.target * 100, k.current, k.target⟩] ∧
    app3_suggestion_tier (k.current / k.target * 100) =
      (if k.current / k.target * 100 < 50 then some Tier3.onboarding
       else some Tier3.optimize) ∧
    app2_rec_for tname k0 =
      [⟨tname, k0.name, Issue2.underperforming 100,
        "Consider additional training or tool optimization"⟩] ∧
    app3_kpi_rec tname k0 = [] := by
  have hne : k.target ≠ 0 := ne_of_gt ht
  have hrat : app2_ratio k = k.current / k.target * 100 := by
    simp [app2_ratio, hne]
  refine ⟨?_, ?_, ?_, ?_, ?_⟩
  · unfold app2_rec_for
    rw [hrat]
    simp [hr]
  · unfold app3_kpi_rec
    simp [ht, hr]
  · unfold app3_suggestion_tier
    by_cases h5 : k.current / k.target * 100 < 50
    · simp [h5]
    · simp [h5, hr]
  · unfold app2_rec_for app2_ratio
    simp [h0]
  · unfold app3_kpi_rec
    simp [h0]

/-- C4 witness: the claim's scenario, current 40 against target 100 (ratio
40, tier below 50) together with a zero-target KPI, evaluated through the
amended theorem. -/
theorem c4_witness :
    app2_rec_for "AI Task Assistant" ⟨"Time Saved", 40, 100, "h"⟩ =
      [⟨"AI Task Assistant", "Time Saved", Issue2.underperforming 60,
        "Consider additional training or tool optimization"⟩] ∧
    app3_kpi_rec "AI Task Assistant" ⟨"Time Saved", 40, 100, "h"⟩ =
      [⟨"AI Task Assistant", "Time Saved", 40, 40, 100⟩] ∧
    app3_suggestion_tier 40 = some Tier3.onboarding ∧
    app3_kpi_rec "AI Task Assistant" ⟨"Adoption", 50, 0, "%"⟩ = [] := by
  have h := c4_underperforming_amended "AI Task Assistant" ⟨"Time Saved", 40, 100, "h"⟩
    ⟨"Adoption", 50, 0, "%"⟩ (by norm_num) (by norm_num) (by norm_num)
  obtain ⟨h1, h2, h3, _, h5⟩ := h
  refine ⟨?_, ?_, ?_, h5⟩
  · rw [h1]
    norm_num
  · rw [h2]
    norm_num
  · have h40 : ((40 : ℚ) / 100 * 100) = 40 := by norm_num
    rw [h40] at h3
    rw [h3]
    norm_num

/-- C5 counterexample: a zero-target KPI (current 50, target 0) is skipped
outright by app3's recommendations computation (no entry, although a KPI
treated as having ratio 0 would fire the below-80 rule), while app2's page
does emit an underperforming entry for it — so such a KPI is not treated as
having ratio 0 in every variant. -/
theorem c5_counterexample :
    app3_kpi_rec "AI Task Assistant" ⟨"User Satisfaction", 50, 0, "rating"⟩ = [] ∧
    app2_rec_for "AI Task Assistant" ⟨"User Satisfaction", 50, 0, "rating"⟩ ≠ [] := by
  constructor <;> norm_num [app3_kpi_rec, app2_rec_for, app2_ratio]

/-- C5 amended: for every zero-target KPI, `kpi_performance` and app2's
recommendation ratio evaluate to 0 and no division is performed (never
raising); app2's recommendations page consequently treats the KPI as ratio
0 and emits an underperforming-by-100 entry, whereas app3's page skips
zero-target KPIs entirely (its `target > 0` guard), emitting no
recommendation for them — also never raising. -/
theorem c5_zero_target_amended (tname : String) (k : KPI) (h0 : k.target = 0) :
    kpi_performance k = 0 ∧
    app2_ratio k = 0 ∧
    app2_rec_for tname k =
      [⟨tname, k.name, Issue2.underperforming 100,
        "Consider additional training or tool optimization"⟩] ∧
    app3_kpi_rec tname k = [] := by
  refine ⟨?_, ?_, ?_, ?_⟩
  · unfold kpi_performance
    simp [h0]
  · simp [app2_ratio, h0]
  · unfold app2_rec_for app2_ratio
    simp [h0]
  · unfold app3_kpi_rec
    simp [h0]

/-- C5 witness: the zero-target KPI with current value 3 evaluated through
the amended theorem. -/
theorem c5_witness :
    kpi_performance ⟨"New Metric", 3, 0, "units"⟩ = 0 ∧
    app3_kpi_rec "Risk Predictor" ⟨"New Metric", 3, 0, "units"⟩ = [] :=
  ⟨(c5_zero_target_amended "Risk Predictor" ⟨"New Metric", 3, 0, "units"⟩ rfl).1,
   (c5_zero_target_amended "Risk Predictor" ⟨"New Metric", 3, 0, "units"⟩ rfl).2.2.2⟩

lemma lookupKpis_dictInsert (kd : List (Nat × List KPI)) (key : Nat) (v : List KPI) :
    lookupKpis (dictInsert kd key v) key = some v := by
  induction kd with
  | nil => simp [dictInsert, lookupKpis]
  | cons p rest ih =>
    obtain ⟨k, w⟩ := p
    by_cases hk : k = key
    · subst hk
      simp [dictInsert, lookupKpis]
    · simp [dictInsert, lookupKpis, hk, ih]

/-- C8 counterexample: submitting app3's Add-New-AI-Tool form with a
non-empty name and an investment of exactly 0 is rejected (the handler
requires `total_investment > 0`) and the store is left unchanged, refuting
the claim that a zero investment with a non-empty name is accepted. -/
theorem c8_counterexample :
    add_tool_submit emptyStore ⟨"AI Reporting Assistant", "Productivity", 0, "2024-03-01", 5, ""⟩
      ⟨"Time Saved", 0, 100, "hours/month"⟩ = (emptyStore, none) := by
  norm_num [add_tool_submit]

/-- C8 amended: app3's submit handler succeeds — appending the tool with
the freshly allocated identifier and storing its first KPI — exactly when
the name and category are non-empty and the investment is strictly
positive; any other input (in particular a zero investment) is rejected
with the store completely unchanged.  app2's handler instead checks only
that the name is non-empty (it never examines the investment) and likewise
leaves its tool list unchanged on rejection. -/
theorem c8_add_tool_amended (store : DashStore) (inp : FormInput) (kpi1 : KPI)
    (tools2 : List Tool2) (kpis2 : List KPI) :
    (inp.tool_name ≠ "" ∧ inp.category ≠ "" ∧ 0 < inp.total_investment →
      add_tool_submit store inp kpi1 =
        ({ ai_tools := store.ai_tools ++
            [⟨new_tool_id store.ai_tools, inp.tool_name, inp.category, inp.total_investment,
              inp.implementation_date, inp.team_size, inp.description⟩],
           kpi_data := dictInsert store.kpi_data (new_tool_id store.ai_tools) [kpi1] },
         some (new_tool_id store.ai_tools))) ∧
    (¬(inp.tool_name ≠ "" ∧ inp.category ≠ "" ∧ 0 < inp.total_investment) →
      add_tool_submit store inp kpi1 = (store, none)) ∧
    (inp.tool_name ≠ "" →
      app2_add_tool tools2 inp kpis2 =
        (tools2 ++ [⟨inp.tool_name, inp.category, inp.total_investment,
          inp.implementation_date, inp.team_size, inp.description, kpis2⟩], true)) ∧
    (inp.tool_name = "" → app2_add_tool tools2 inp kpis2 = (tools2, false)) := by
  refine ⟨?_, ?_, ?_, ?_⟩
  · intro h
    unfold add_tool_submit
    rw [if_pos h]
  · intro h
    unfold add_tool_submit
    rw [if_neg h]
  · intro h
    unfold app2_add_tool
    rw [if_pos h]
  · intro h
    unfold app2_add_tool
    rw [if_neg (by simp [h])]

/-- C8 witness: a valid input (name "Risk Predictor", investment 25000) is
accepted by app3's handler and allocated identifier 1 on the empty store. -/
theorem c8_witness :
    add_tool_submit emptyStore c8Inp c8Kpi =
      ({ ai_tools := [⟨1, "Risk Predictor", "Risk Management", 25000, "2024-02-01", 22, ""⟩],
         kpi_data := [(1, [c8Kpi])] }, some 1) := by
  have h := (c8_add_tool_amended emptyStore c8Inp c8Kpi [] []).1
    (by refine ⟨by simp [c8Inp], by simp [c8Inp], by norm_num [c8Inp]⟩)
  rw [h]
  simp [emptyStore, c8Inp, new_tool_id, dictInsert, lookupKpis]

lemma foldl_max_id_mono (tools : List Tool) (a : Nat) :
    a ≤ tools.foldl (fun m t => max m t.id) a := by
  induction tools generalizing a with
  | nil => simp
  | cons t rest ih =>
    simp only [List.foldl_cons]
    exact le_trans (le_max_left a t.id) (ih (max a t.id))

lemma mem_id_le_foldl_max (tools : List Tool) (a : Nat) (t : Tool) (h : t ∈ tools) :
    t.id ≤ tools.foldl (fun m s => max m s.id) a := by
  induction tools generalizing a with
  | nil => cases h
  | cons s rest ih =>
    simp only [List.foldl_cons]
    rcases List.mem_cons.mp h with h1 | h2
    · subst h1
      exact le_trans (le_max_right a t.id) (foldl_max_id_mono rest (max a t.id))
    · exact ih (max a s.id) h2

/-- C9: identifier allocation in app3 — the new identifier is one more than
the running maximum (so it strictly exceeds every identifier already in the
store and is never reused), it is 1 on the empty store, and three accepted
submissions in sequence on the empty store receive identifiers 1, 2, 3
whatever their names. -/
theorem c9_id_allocation :
    (∀ tools : List Tool, ∀ t ∈ tools, t.id < new_tool_id tools) ∧
    new_tool_id [] = 1 ∧
    (∀ (i1 i2 i3 : FormInput) (k1 k2 k3 : KPI),
      i1.tool_name ≠ "" → i1.category ≠ "" → 0 < i1.total_investment →
      i2.tool_name ≠ "" → i2.category ≠ "" → 0 < i2.total_investment →
      i3.tool_name ≠ "" → i3.category ≠ "" → 0 < i3.total_investment →
      (add_tool_submit emptyStore i1 k1).2 = some 1 ∧
      (add_tool_submit (add_tool_submit emptyStore i1 k1).1 i2 k2).2 = some 2 ∧
      (add_tool_submit (add_tool_submit (add_tool_submit emptyStore i1 k1).1 i2 k2).1
        i3 k3).2 = some 3) := by
  refine ⟨?_, rfl, ?_⟩
  · intro tools t ht
    exact Nat.lt_succ_of_le (mem_id_le_foldl_max tools 0 t ht)
  · intro i1 i2 i3 k1 k2 k3 h1a h1b h1c h2a h2b h2c h3a h3b h3c
    simp [add_tool_submit, h1a, h1b, h1c, h2a, h2b, h2c, h3a, h3b, h3c,
      new_tool_id, emptyStore]

/-- C9 witness: three concrete valid submissions on the empty store receive
identifiers 1, 2 and 3. -/
theorem c9_witness :
    (add_tool_submit emptyStore c9Inp1 c9Kpi).2 = some 1 ∧
    (add_tool_submit (add_tool_submit emptyStore c9Inp1 c9Kpi).1 c9Inp2 c9Kpi).2 = some 2 ∧
    (add_tool_submit (add_tool_submit (add_tool_submit emptyStore c9Inp1 c9Kpi).1
      c9Inp2 c9Kpi).1 c9Inp3 c9Kpi).2 = some 3 :=
  c9_id_allocation.2.2 c9Inp1 c9Inp2 c9Inp3 c9Kpi c9Kpi c9Kpi
    (by simp [c9Inp1]) (by simp [c9Inp1]) (by norm_num [c9Inp1])
    (by simp [c9Inp2]) (by simp [c9Inp2]) (by norm_num [c9Inp2])
    (by simp [c9Inp3]) (by simp [c9Inp3]) (by norm_num [c9Inp3])

/-- C10: app3's Add-New-AI-Tool form result does not depend on the
Additional-KPIs inputs at all — any checkbox state and any list of entered
additional KPIs give the identical store and identifier — and a successful
submission stores exactly the singleton KPI list holding KPI 1 for the new
tool. -/
theorem c10_additional_kpis_discarded (store : DashStore) (inp : FormInput) (kpi1 : KPI)
    (b b' : Bool) (adds adds' : List KPI) :
    add_tool_form store inp kpi1 b adds = add_tool_form store inp kpi1 b' adds' ∧
    (inp.tool_name ≠ "" → inp.category ≠ "" → 0 < inp.total_investment →
      lookupKpis (add_tool_form store inp kpi1 b adds).1.kpi_data
        (new_tool_id store.ai_tools) = some [kpi1]) := by
  constructor
  · rfl
  · intro h1 h2 h3
    unfold add_tool_form add_tool_submit
    rw [if_pos ⟨h1, h2, h3⟩]
    exact lookupKpis_dictInsert store.kpi_data (new_tool_id store.ai_tools) [kpi1]

/-- C10 witness: a concrete submission with two additional KPIs requested
stores only KPI 1, and flipping the Additional-KPIs inputs leaves the
result unchanged. -/
theorem c10_witness :
    add_tool_form emptyStore c10Inp c10Kpi true [c10Extra1, c10Extra2] =
      add_tool_form emptyStore c10Inp c10Kpi false [] ∧
    lookupKpis (add_tool_form emptyStore c10Inp c10Kpi true
      [c10Extra1, c10Extra2]).1.kpi_data 1 = some [c10Kpi] := by
  have h := c10_additional_kpis_discarded emptyStore c10Inp c10Kpi true false
    [c10Extra1, c10Extra2] []
  refine ⟨h.1, ?_⟩
  have h2 := h.2 (by simp [c10Inp]) (by simp [c10Inp]) (by norm_num [c10Inp])
  exact h2
